import Mathlib

/-!
Verification development for the Dicee repository's Flask backend
(`src/backend/app.py`): the in-memory agent/connection store (CRUD
endpoints) and the `run_flow` endpoint that wires the fixed
InputNode → PromptTemplateNode → GeminiLLMNode chain.

The embedding is shallow: Python dicts parsed from JSON become
association lists over a `JsonVal` type, the two module-level dicts
`agents_db`/`connections_db` become a `Store`, each endpoint handler
becomes a pure function from store and request data to new store and
response, and the LangChain portion of `run_flow` (prompt construction,
LLM instantiation and `chain.invoke`) is an injected collaborator
function, since it is third-party library behaviour with an external
side effect. JSON numeric literals are kept as their source text
(`JsonVal.num "0.7"`): the embedded code performs no arithmetic on
them.
-/

namespace App

/-- JSON-like values as produced by `request.get_json()` and stored in the
agent/connection dicts. Numbers are kept as their literal text, since the
modelled code never computes with them. -/
inductive JsonVal where
| null : JsonVal
| bool : Bool → JsonVal
| num : String → JsonVal
| str : String → JsonVal
| obj : List (String × JsonVal) → JsonVal
| arr : List JsonVal → JsonVal

/-- Python `v == k` where `v` is an arbitrary JSON value and `k` a `str`:
true exactly when `v` is that string (comparison of a non-`str` value with a
`str` yields `False` in Python). -/
def jsonEqStr : JsonVal → String → Bool
| .str t, k => t == k
| _, _ => false

/-- Python truthiness of a JSON value (`if not x`). A numeric literal is
falsy when it denotes zero; literals are compared textually, covering the
forms `0`, `0.0`, `-0.0` etc. (exotic forms like `0e0` are not modelled;
no modelled code path depends on them). -/
def pyTruthy : JsonVal → Bool
| .null => false
| .bool b => b
| .num s => !(s.toList.all (fun c => c == '0' || c == '.' || c == '-' || c == '+'))
| .str s => !(s == "")
| .obj l => !l.isEmpty
| .arr l => !l.isEmpty

mutual
/-- Python `repr` of a JSON value (which is also `str` for dicts/lists). -/
def pyRepr : JsonVal → String
| .null => "None"
| .bool true => "True"
| .bool false => "False"
| .num s => s
| .str s => "\x27" ++ s ++ "\x27"
| .obj fs => "\x7b" ++ pyReprFields fs ++ "\x7d"
| .arr es => "[" ++ pyReprElems es ++ "]"

/-- `repr` of the field list of a dict, comma separated. -/
def pyReprFields : List (String × JsonVal) → String
| [] => ""
| [(k, v)] => "\x27" ++ k ++ "\x27: " ++ pyRepr v
| (k, v) :: rest => "\x27" ++ k ++ "\x27: " ++ pyRepr v ++ ", " ++ pyReprFields rest

/-- `repr` of the element list of a list, comma separated. -/
def pyReprElems : List JsonVal → String
| [] => ""
| [v] => pyRepr v
| v :: rest => pyRepr v ++ ", " ++ pyReprElems rest
end

/-- Python `str` of a JSON value as used in f-strings: strings are printed
without quotes, everything else as its `repr`. -/
def pyStr : JsonVal → String
| .str s => s
| v => pyRepr v

/-- Python type name of a JSON value, used for the AttributeError message
raised when `.get` is called on a non-dict config. -/
def pyTypeName : JsonVal → String
| .null => "NoneType"
| .bool _ => "bool"
| .num s => if s.toList.any (fun c => c == '.') then "float" else "int"
| .str _ => "str"
| .obj _ => "dict"
| .arr _ => "list"

/-- Message of the `AttributeError` raised by `v.get(...)` when `v` is not a
dict (reaching the generic `except` handler of `run_flow`). -/
def attrCrashMsg (v : JsonVal) : String :=
"\x27" ++ pyTypeName v ++ "\x27 object has no attribute \x27get\x27"

/-- An agent record as built by `create_agent` and mutated by
`update_agent`. The `config` is an arbitrary JSON value: `update_agent`
stores whatever the request supplies, without checking it is a dict. -/
structure Agent where
id : String
name : JsonVal
type : JsonVal
config : JsonVal
position : JsonVal

/-- A connection record as built by `create_connection`. Endpoint ids are
raw request values (JSON), compared against agent-dict keys with Python
equality. -/
structure Connection where
id : String
source_agent_id : JsonVal
target_agent_id : JsonVal
source_port : JsonVal
target_port : JsonVal

/-- The module-level in-memory store: `agents_db` and `connections_db`,
insertion-ordered dicts keyed by generated uuid strings. -/
structure Store where
agents_db : List (String × Agent)
connections_db : List (String × Connection)

/-- Python dict assignment `db[k] = v`: replace in place when the key is
present, else append (dicts preserve insertion order). -/
def dbInsert {α : Type} (db : List (String × α)) (k : String) (v : α) : List (String × α) :=
if db.any (fun p => p.1 == k) then db.map (fun p => if p.1 == k then (k, v) else p)
else db ++ [(k, v)]

/-- One step of Python dict-merge `{**a, **b}`: insert a single binding. -/
def dictInsert (d : List (String × JsonVal)) (k : String) (v : JsonVal) : List (String × JsonVal) :=
dbInsert d k v

/-- Python `{**a, **b}`: the bindings of `a` overridden key-by-key by those
of `b`, keys of `a` keeping their position, new keys of `b` appended in
order. -/
def dictMerge (a b : List (String × JsonVal)) : List (String × JsonVal) :=
b.foldl (fun d p => dictInsert d p.1 p.2) a

/-- The module-level `DEFAULT_CONFIGS` dict of `app.py`, as a partial map
from type tag to default config. -/
def DEFAULT_CONFIGS : String → Option (List (String × JsonVal))
| "InputNode" => some [("value", .obj [("text", .str "Default input text")])]
| "OutputNode" => some []
| "ProcessingNode" => some [("prepend", .str "Processed: "), ("append", .str "")]
| "PromptTemplateNode" => some [("template_string", .str "Translate the following text to French: \x7btext\x7d")]
| "GeminiLLMNode" => some [("model_name", .str "gemini-pro"), ("temperature", .num "0.7")]
| _ => none

/-- `DEFAULT_CONFIGS.get(agent_type, {})` where `agent_type` is the raw
request value: a string tag looks up the dict, other hashable tags
(numbers, booleans, null) miss every key, and an unhashable tag (a dict
or list) makes `.get` raise `TypeError` — modelled as `none`. -/
def defaultsFor : JsonVal → Option (List (String × JsonVal))
| .str s => some ((DEFAULT_CONFIGS s).getD [])
| .obj _ => none
| .arr _ => none
| _ => some []

/-- Result of `create_agent`: 400 on missing name/type, an uncaught
`TypeError` (either from `DEFAULT_CONFIGS.get` on an unhashable type tag,
or from `{**d, **c}` when the supplied config is not a dict), or the
created agent record. -/
inductive CreateResult where
| badRequest : CreateResult
| crash : CreateResult
| created : Agent → CreateResult

/-- `data.get("config", {})` followed by its use in `{**default, **user}`:
absent key yields the empty dict; a present non-dict value (including JSON
null, i.e. Python `None`) makes the merge raise `TypeError`. -/
def userConfig (data : List (String × JsonVal)) : Option (List (String × JsonVal)) :=
match List.lookup "config" data with
| none => some []
| some (.obj l) => some l
| some _ => none

/-- `POST /api/agents` (`create_agent` in `app.py`): validate name/type,
look up the type's default config (raising `TypeError` on an unhashable
tag, line 42), merge it with the request config (request wins, raising
`TypeError` on a non-dict config, line 45), store the new agent under a
fresh id. -/
def create_agent (s : Store) (newId : String) (data : List (String × JsonVal)) : Store × CreateResult :=
if ((List.lookup "name" data).isSome && (List.lookup "type" data).isSome) = false then
  (s, .badRequest)
else
  let agent_type := (List.lookup "type" data).getD .null
  match defaultsFor agent_type with
  | none => (s, .crash)
  | some default_config =>
    match userConfig data with
    | none => (s, .crash)
    | some user_config =>
    let final_config := dictMerge default_config user_config
    let a : Agent :=
      { id := newId
        name := (List.lookup "name" data).getD .null
        type := agent_type
        config := .obj final_config
        position := (List.lookup "position" data).getD (.obj [("x", .num "0"), ("y", .num "0")]) }
    ({ s with agents_db := dbInsert s.agents_db newId a }, .created a)

/-- `PUT /api/agents/<agent_id>` (`update_agent`): 404 when the id is
unknown, 400 on an empty body; otherwise each field falls back to its
previous value when absent from the request, and the config is replaced
wholesale when present and not `None` (`data.get("config")` returns `None`
both for an absent key and an explicit JSON null). -/
def update_agent (s : Store) (agent_id : String) (data : List (String × JsonVal)) : Store × Nat :=
match List.lookup agent_id s.agents_db with
| none => (s, 404)
| some a =>
  if data.isEmpty then (s, 400)
  else
    let a' : Agent :=
      { id := a.id
        name := (List.lookup "name" data).getD a.name
        type := (List.lookup "type" data).getD a.type
        config :=
          match List.lookup "config" data with
          | some .null => a.config
          | some v => v
          | none => a.config
        position := (List.lookup "position" data).getD a.position }
    ({ s with agents_db := dbInsert s.agents_db agent_id a' }, 200)

/-- `DELETE /api/agents/<agent_id>` (`delete_agent`): 404 when unknown,
otherwise delete every connection whose source or target equals the agent
id, then delete the agent. -/
def delete_agent (s : Store) (agent_id : String) : Store × Nat :=
if (List.lookup agent_id s.agents_db).isSome = false then (s, 404)
else
  ({ agents_db := s.agents_db.filter (fun p => !(p.1 == agent_id))
     connections_db := s.connections_db.filter
       (fun p => !(jsonEqStr p.2.source_agent_id agent_id || jsonEqStr p.2.target_agent_id agent_id)) }, 200)

/-- Python `v in agents_db` for a raw request value `v`: some dict key
equals `v`. For an unhashable `v` (dict/list) Python raises `TypeError`
instead of returning `False`; both outcomes leave the store unchanged and
return no 201, this model folds that corner into the 404 branch. -/
def agentKeyExists (s : Store) (v : JsonVal) : Bool :=
s.agents_db.any (fun p => jsonEqStr v p.1)

/-- `POST /api/connections` (`create_connection`): 400 when one of the four
required fields is missing, 404 when an endpoint id is not an existing
agent key, otherwise store the connection under a fresh id. -/
def create_connection (s : Store) (newId : String) (data : List (String × JsonVal)) : Store × Nat :=
if (((List.lookup "source_agent_id" data).isSome && (List.lookup "target_agent_id" data).isSome)
    && ((List.lookup "source_port" data).isSome && (List.lookup "target_port" data).isSome)) = false then
  (s, 400)
else
  let src := (List.lookup "source_agent_id" data).getD .null
  let tgt := (List.lookup "target_agent_id" data).getD .null
  if (agentKeyExists s src && agentKeyExists s tgt) = false then (s, 404)
  else
    let c : Connection :=
      { id := newId
        source_agent_id := src
        target_agent_id := tgt
        source_port := (List.lookup "source_port" data).getD .null
        target_port := (List.lookup "target_port" data).getD .null }
    ({ s with connections_db := dbInsert s.connections_db newId c }, 201)

/-- `DELETE /api/connections/<connection_id>` (`delete_connection`). -/
def delete_connection (s : Store) (connection_id : String) : Store × Nat :=
if (List.lookup connection_id s.connections_db).isSome = false then (s, 404)
else ({ s with connections_db := s.connections_db.filter (fun p => !(p.1 == connection_id)) }, 200)

/-- The mutating store operations of the CRUD layer, with their request
payloads. -/
inductive StoreOp where
| createAgent : String → List (String × JsonVal) → StoreOp
| updateAgent : String → List (String × JsonVal) → StoreOp
| deleteAgent : String → StoreOp
| createConnection : String → List (String × JsonVal) → StoreOp
| deleteConnection : String → StoreOp

/-- The store left behind by one CRUD operation. -/
def applyOp (s : Store) : StoreOp → Store
| .createAgent newId data => (create_agent s newId data).1
| .updateAgent aid data => (update_agent s aid data).1
| .deleteAgent aid => (delete_agent s aid).1
| .createConnection newId data => (create_connection s newId data).1
| .deleteConnection cid => (delete_connection s cid).1

/-- The referential-integrity invariant of the store: every connection's
source and target id equal some existing agent key. -/
def edgeInvariantB (s : Store) : Bool :=
s.connections_db.all
  (fun p => s.agents_db.any (fun q => jsonEqStr p.2.source_agent_id q.1)
    && s.agents_db.any (fun q => jsonEqStr p.2.target_agent_id q.1))

/-- The JSON body returned by `run_flow`, together with the HTTP status.
Keys absent from a particular `jsonify(...)` literal are `none`. -/
structure RunResponse where
status : Nat
error : Option String
message : Option String
execution_order : Option (List String)
final_outputs : Option (List (String × String))
simulation_details : Option (List String)

/-- The injected LangChain collaborator: `PromptTemplate.from_template`,
`ChatGoogleGenerativeAI(...)` and `chain.invoke(...)` combined, taking the
raw template value, model name value, temperature value and the chain
input dict, returning the response text or the message of the exception
raised. -/
def ChainFn : Type :=
JsonVal → JsonVal → JsonVal → JsonVal → Except String String

/-- The `except Exception` handler of `run_flow`: a 500 report carrying the
exception text, an empty order and empty outputs. -/
def excResponse (e : String) : RunResponse :=
{ status := 500
  error := some ("Langchain execution failed: " ++ e)
  message := none
  execution_order := some []
  final_outputs := some []
  simulation_details := some ["Error: " ++ e] }

/-- Accumulator of the node-identification loop of `run_flow`:
`input_node_data`, `prompt_template_node_data`, `llm_node_data`, each kept
with its dict key (`agent_id` of the loop). -/
structure ScanAcc where
inp : Option (String × Agent)
tmpl : Option (String × Agent)
llm : Option (String × Agent)

/-- `any(conn['target_agent_id'] == agent_id for conn in connections_db.values())`. -/
def is_target (conns : List Connection) (agent_id : String) : Bool :=
conns.any (fun c => jsonEqStr c.target_agent_id agent_id)

/-- One iteration of the identification loop: an `InputNode` becomes the
candidate start only when it is not the target of any connection (no
`break`: a later qualifying node overwrites an earlier one); template and
LLM nodes are recorded by type. -/
def scanStep (conns : List Connection) (acc : ScanAcc) (p : String × Agent) : ScanAcc :=
if jsonEqStr p.2.type "InputNode" then
  if is_target conns p.1 = false then { acc with inp := some p } else acc
else if jsonEqStr p.2.type "PromptTemplateNode" then { acc with tmpl := some p }
else if jsonEqStr p.2.type "GeminiLLMNode" then { acc with llm := some p }
else acc

/-- The whole identification loop over `agents_db.items()` in insertion
order. -/
def scanNodes (agents : List (String × Agent)) (conns : List Connection) : ScanAcc :=
agents.foldl (scanStep conns) ⟨none, none, none⟩

/-- The `try` block of `run_flow`, entered once the three required nodes
are identified: read the chain input from the input node's config, reject
a non-dict value, read and validate the template string, then hand the raw
values to the injected LangChain collaborator; a config that is not a dict
raises `AttributeError` on `.get`, landing in the generic handler. -/
def runTry (inp tmpl llm : String × Agent) (chainInvoke : ChainFn) : RunResponse :=
match inp.2.config with
| .obj ci =>
  let chain_input := (List.lookup "value" ci).getD (.obj [])
  match chain_input with
  | .obj _ =>
    match tmpl.2.config with
    | .obj ct =>
      let template_string := (List.lookup "template_string" ct).getD (.str "")
      if pyTruthy template_string = false then
        { status := 400
          error := some "PromptTemplateNode has no template_string configured."
          message := none
          execution_order := none
          final_outputs := none
          simulation_details := none }
      else
        match llm.2.config with
        | .obj cl =>
          let model_name := (List.lookup "model_name" cl).getD (.str "gemini-pro")
          let temperature := (List.lookup "temperature" cl).getD (.num "0.7")
          match chainInvoke template_string model_name temperature chain_input with
          | .error e => excResponse e
          | .ok response =>
            { status := 200
              error := none
              message := some "Langchain flow executed successfully."
              execution_order := some [inp.2.id, tmpl.2.id, llm.2.id]
              final_outputs := some [(llm.2.id, response)]
              simulation_details := some
                [ "Input: " ++ pyStr chain_input
                , "Prompt Used: " ++ pyStr template_string
                , "LLM Model: " ++ pyStr ((List.lookup "model_name" cl).getD .null)
                , "LLM Response: " ++ response ] }
        | other => excResponse (attrCrashMsg other)
    | other => excResponse (attrCrashMsg other)
  | _ =>
    { status := 400
      error := some "InputNode \x27value\x27 config must be a dictionary (object)."
      message := none
      execution_order := none
      final_outputs := none
      simulation_details := some ["Error: InputNode \x27value\x27 not a dict."] }
| other => excResponse (attrCrashMsg other)

/-- `POST /api/flow/run` (`run_flow`): fail fast when the API key is
absent, identify the three required nodes, return the role-specific 400
error when one is missing, else run the chain. `hasApiKey` models
`os.getenv("GOOGLE_API_KEY")` being set. -/
def run_flow (hasApiKey : Bool) (s : Store) (chainInvoke : ChainFn) : RunResponse :=
if hasApiKey = false then
  { status := 500
    error := some "GOOGLE_API_KEY environment variable not set on the server."
    message := none
    execution_order := some []
    final_outputs := some []
    simulation_details := some ["Error: GOOGLE_API_KEY not set."] }
else
  let acc := scanNodes s.agents_db (s.connections_db.map Prod.snd)
  match acc.inp with
  | none =>
    { status := 400
      error := some "InputNode not found or not configured as a starting node in the flow."
      message := none
      execution_order := none
      final_outputs := none
      simulation_details := some ["Error: InputNode missing."] }
  | some inp =>
    match acc.tmpl with
    | none =>
      { status := 400
        error := some "PromptTemplateNode not found in the flow."
        message := none
        execution_order := none
        final_outputs := none
        simulation_details := some ["Error: PromptTemplateNode missing."] }
    | some tmpl =>
      match acc.llm with
      | none =>
        { status := 400
          error := some "GeminiLLMNode not found in the flow."
          message := none
          execution_order := none
          final_outputs := none
          simulation_details := some ["Error: GeminiLLMNode missing."] }
      | some llm => runTry inp tmpl llm chainInvoke

/-- Modelled from the spec: trim surrounding whitespace (Python
`str.strip` as used by the Port Resolver) — drop leading and trailing
whitespace characters. -/
def pyTrim (s : String) : String :=
⟨((s.data.dropWhile Char.isWhitespace).reverse.dropWhile Char.isWhitespace).reverse⟩

/-- Join strings with a single space. -/
def joinSpace : List String → String
| [] => ""
| [x] => x
| x :: rest => x ++ " " ++ joinSpace rest

/-- Modelled from the spec: the Port Resolver of §4.2 is not present in
`src/` (only the spec describes it). For a node, take every edge whose
target is that node in edge insertion order, look up each edge's source
node's recorded output, skipping sources with no recorded output, then
concatenate the stringified outputs separated by a single space and trim
surrounding whitespace. -/
def resolve_input (node_id : String) (edges : List Connection) (outputs : List (String × JsonVal)) : String :=
let incoming := edges.filter (fun e => jsonEqStr e.target_agent_id node_id)
let found := incoming.filterMap
  (fun e => match e.source_agent_id with
    | .str sid => List.lookup sid outputs
    | _ => none)
pyTrim (joinSpace (found.map pyStr))

/-- A deterministic LangChain stub that always succeeds. -/
def stubChain : ChainFn := fun _ _ _ _ => .ok "stub-response"

/-- A deterministic LangChain stub that always raises. -/
def stubChainErr : ChainFn := fun _ _ _ _ => .error "boom"

/-- An entry node that is eligible to start (not a connection target in the
stores below that use it without incoming edges). -/
def inpAgent : Agent :=
{ id := "i", name := .str "in", type := .str "InputNode"
  config := .obj [("value", .obj [("text", .str "hi")])], position := .obj [] }

/-- A templated-prompt node with a non-empty template. -/
def tmplAgent : Agent :=
{ id := "t", name := .str "tp", type := .str "PromptTemplateNode"
  config := .obj [("template_string", .str "Say: \x7btext\x7d")], position := .obj [] }

/-- A generative-model node with the default-style config. -/
def llmAgent : Agent :=
{ id := "l", name := .str "llm", type := .str "GeminiLLMNode"
  config := .obj [("model_name", .str "gemini-pro"), ("temperature", .num "0.7")], position := .obj [] }

/-- A plain terminal node used as the source of an edge into the entry
node. -/
def srcAgent : Agent :=
{ id := "src", name := .str "s", type := .str "OutputNode", config := .obj [], position := .obj [] }

/-- A store whose only entry-typed node is the target of a connection. -/
def stTargetedEntry : Store :=
{ agents_db := [("src", srcAgent), ("i", inpAgent), ("t", tmplAgent), ("l", llmAgent)]
  connections_db := [("c1",
    { id := "c1", source_agent_id := .str "src", target_agent_id := .str "i"
      source_port := .str "output", target_port := .str "input" })] }

/-- A well-formed store for the fixed pipeline, with no connections. -/
def stPipeline : Store :=
{ agents_db := [("i", inpAgent), ("t", tmplAgent), ("l", llmAgent)]
  connections_db := [] }

/-- A templated-prompt node whose template string is empty. -/
def tmplAgentEmpty : Agent :=
{ id := "t", name := .str "tp", type := .str "PromptTemplateNode"
  config := .obj [("template_string", .str "")], position := .obj [] }

/-- A pipeline store whose template node has an empty template string. -/
def stEmptyTemplate : Store :=
{ agents_db := [("i", inpAgent), ("t", tmplAgentEmpty), ("l", llmAgent)]
  connections_db := [] }

/-- The empty store. -/
def emptyStore : Store := { agents_db := [], connections_db := [] }

theorem jsonEqStr_eq_iff (v : JsonVal) (k : String) : jsonEqStr v k = true ↔ v = .str k := by
  cases v <;> simp [jsonEqStr]

theorem scanStep_inp (conns : List Connection) (acc : ScanAcc) (p : String × Agent) :
    (scanStep conns acc p).inp =
      if (jsonEqStr p.2.type "InputNode" && !(is_target conns p.1)) = true then some p
      else acc.inp := by
  unfold scanStep
  cases hI : jsonEqStr p.2.type "InputNode" with
  | true =>
    cases hT : is_target conns p.1 with
    | false => simp [hT]
    | true => simp [hT]
  | false =>
    cases hP : jsonEqStr p.2.type "PromptTemplateNode" with
    | true => simp
    | false =>
      cases hG : jsonEqStr p.2.type "GeminiLLMNode" with
      | true => simp
      | false => simp

theorem scanStep_tmpl (conns : List Connection) (acc : ScanAcc) (p : String × Agent) :
    (scanStep conns acc p).tmpl =
      if jsonEqStr p.2.type "PromptTemplateNode" = true then some p else acc.tmpl := by
  unfold scanStep
  cases hI : jsonEqStr p.2.type "InputNode" with
  | true =>
    have hP : jsonEqStr p.2.type "PromptTemplateNode" = false := by
      rw [jsonEqStr_eq_iff] at hI
      simp [hI, jsonEqStr]
    cases hT : is_target conns p.1 with
    | false => simp [hT, hP]
    | true => simp [hT, hP]
  | false =>
    cases hP : jsonEqStr p.2.type "PromptTemplateNode" with
    | true => simp
    | false =>
      cases hG : jsonEqStr p.2.type "GeminiLLMNode" with
      | true => simp
      | false => simp

theorem scanStep_llm (conns : List Connection) (acc : ScanAcc) (p : String × Agent) :
    (scanStep conns acc p).llm =
      if jsonEqStr p.2.type "GeminiLLMNode" = true then some p else acc.llm := by
  unfold scanStep
  cases hI : jsonEqStr p.2.type "InputNode" with
  | true =>
    have hG : jsonEqStr p.2.type "GeminiLLMNode" = false := by
      rw [jsonEqStr_eq_iff] at hI
      simp [hI, jsonEqStr]
    cases hT : is_target conns p.1 with
    | false => simp [hT, hG]
    | true => simp [hT, hG]
  | false =>
    cases hP : jsonEqStr p.2.type "PromptTemplateNode" with
    | true =>
      have hG : jsonEqStr p.2.type "GeminiLLMNode" = false := by
        rw [jsonEqStr_eq_iff] at hP
        simp [hP, jsonEqStr]
      simp [hG]
    | false =>
      cases hG : jsonEqStr p.2.type "GeminiLLMNode" with
      | true => simp
      | false => simp

theorem scan_foldl_inp_none (conns : List Connection) (l : List (String × Agent)) (acc : ScanAcc) :
    (l.foldl (scanStep conns) acc).inp = none ↔
      acc.inp = none ∧ ∀ p ∈ l, (jsonEqStr p.2.type "InputNode" && !(is_target conns p.1)) = false := by
  induction l generalizing acc with
  | nil => simp
  | cons q rest ih =>
    rw [List.foldl_cons, ih, scanStep_inp]
    by_cases hq : (jsonEqStr q.2.type "InputNode" && !(is_target conns q.1)) = true
    · rw [if_pos hq]
      apply iff_of_false
      · rintro ⟨h, -⟩
        exact Option.noConfusion h
      · rintro ⟨-, hall⟩
        have := hall q (List.mem_cons_self q rest)
        rw [hq] at this
        exact Bool.noConfusion this
    · rw [if_neg hq]
      have hq' : (jsonEqStr q.2.type "InputNode" && !(is_target conns q.1)) = false := by
        cases hb : (jsonEqStr q.2.type "InputNode" && !(is_target conns q.1)) with
        | false => rfl
        | true => exact absurd hb hq
      constructor
      · rintro ⟨h1, h2⟩
        refine ⟨h1, fun p hp => ?_⟩
        rcases List.mem_cons.mp hp with rfl | hp'
        · exact hq'
        · exact h2 p hp'
      · rintro ⟨h1, h2⟩
        exact ⟨h1, fun p hp => h2 p (List.mem_cons_of_mem q hp)⟩

theorem scan_foldl_tmpl_none (conns : List Connection) (l : List (String × Agent)) (acc : ScanAcc) :
    (l.foldl (scanStep conns) acc).tmpl = none ↔
      acc.tmpl = none ∧ ∀ p ∈ l, jsonEqStr p.2.type "PromptTemplateNode" = false := by
  induction l generalizing acc with
  | nil => simp
  | cons q rest ih =>
    rw [List.foldl_cons, ih, scanStep_tmpl]
    by_cases hq : jsonEqStr q.2.type "PromptTemplateNode" = true
    · rw [if_pos hq]
      apply iff_of_false
      · rintro ⟨h, -⟩
        exact Option.noConfusion h
      · rintro ⟨-, hall⟩
        have := hall q (List.mem_cons_self q rest)
        rw [hq] at this
        exact Bool.noConfusion this
    · rw [if_neg hq]
      have hq' : jsonEqStr q.2.type "PromptTemplateNode" = false := by
        cases hb : jsonEqStr q.2.type "PromptTemplateNode" with
        | false => rfl
        | true => exact absurd hb hq
      constructor
      · rintro ⟨h1, h2⟩
        refine ⟨h1, fun p hp => ?_⟩
        rcases List.mem_cons.mp hp with rfl | hp'
        · exact hq'
        · exact h2 p hp'
      · rintro ⟨h1, h2⟩
        exact ⟨h1, fun p hp => h2 p (List.mem_cons_of_mem q hp)⟩

theorem scan_foldl_llm_none (conns : List Connection) (l : List (String × Agent)) (acc : ScanAcc) :
    (l.foldl (scanStep conns) acc).llm = none ↔
      acc.llm = none ∧ ∀ p ∈ l, jsonEqStr p.2.type "GeminiLLMNode" = false := by
  induction l generalizing acc with
  | nil => simp
  | cons q rest ih =>
    rw [List.foldl_cons, ih, scanStep_llm]
    by_cases hq : jsonEqStr q.2.type "GeminiLLMNode" = true
    · rw [if_pos hq]
      apply iff_of_false
      · rintro ⟨h, -⟩
        exact Option.noConfusion h
      · rintro ⟨-, hall⟩
        have := hall q (List.mem_cons_self q rest)
        rw [hq] at this
        exact Bool.noConfusion this
    · rw [if_neg hq]
      have hq' : jsonEqStr q.2.type "GeminiLLMNode" = false := by
        cases hb : jsonEqStr q.2.type "GeminiLLMNode" with
        | false => rfl
        | true => exact absurd hb hq
      constructor
      · rintro ⟨h1, h2⟩
        refine ⟨h1, fun p hp => ?_⟩
        rcases List.mem_cons.mp hp with rfl | hp'
        · exact hq'
        · exact h2 p hp'
      · rintro ⟨h1, h2⟩
        exact ⟨h1, fun p hp => h2 p (List.mem_cons_of_mem q hp)⟩

theorem scan_foldl_inp_some (conns : List Connection) (l : List (String × Agent)) (acc : ScanAcc)
    (p : String × Agent) (h : (l.foldl (scanStep conns) acc).inp = some p) :
    (jsonEqStr p.2.type "InputNode" = true ∧ is_target conns p.1 = false ∧ p ∈ l)
      ∨ acc.inp = some p := by
  induction l generalizing acc with
  | nil => exact Or.inr h
  | cons q rest ih =>
    rw [List.foldl_cons] at h
    rcases ih (scanStep conns acc q) h with ⟨h1, h2, h3⟩ | h'
    · exact Or.inl ⟨h1, h2, List.mem_cons_of_mem q h3⟩
    · rw [scanStep_inp] at h'
      by_cases hq : (jsonEqStr q.2.type "InputNode" && !(is_target conns q.1)) = true
      · rw [if_pos hq] at h'
        obtain ⟨hq1, hq2⟩ : jsonEqStr q.2.type "InputNode" = true ∧ (!(is_target conns q.1)) = true := by
          simpa using hq
        have hqp : q = p := Option.some.inj h'
        rw [← hqp]
        exact Or.inl ⟨hq1, by simpa using hq2, List.mem_cons_self q rest⟩
      · rw [if_neg hq] at h'
        exact Or.inr h'

/-- C1: in strict mode (API key present), when the node set is missing a
required role — no entry-typed node without an incoming connection, no
templated-prompt node, or no generative-model-call node — `run_flow`
returns a terminal 400 error report with no execution order and no
outputs, and the result does not depend on the LangChain collaborator (no
node is evaluated, no external call is made). -/
theorem c1_strict_missing_role_terminal (s : Store) (f g : ChainFn)
    (h : (∀ p ∈ s.agents_db,
            (jsonEqStr p.2.type "InputNode" && !(is_target (s.connections_db.map Prod.snd) p.1)) = false)
       ∨ (∀ p ∈ s.agents_db, jsonEqStr p.2.type "PromptTemplateNode" = false)
       ∨ (∀ p ∈ s.agents_db, jsonEqStr p.2.type "GeminiLLMNode" = false)) :
    (run_flow true s f).status = 400
    ∧ (run_flow true s f).error.isSome = true
    ∧ (run_flow true s f).execution_order = none
    ∧ (run_flow true s f).final_outputs = none
    ∧ run_flow true s f = run_flow true s g := by
  have hd : (scanNodes s.agents_db (s.connections_db.map Prod.snd)).inp = none
      ∨ (scanNodes s.agents_db (s.connections_db.map Prod.snd)).tmpl = none
      ∨ (scanNodes s.agents_db (s.connections_db.map Prod.snd)).llm = none := by
    rcases h with h1 | h2 | h3
    · exact Or.inl ((scan_foldl_inp_none (s.connections_db.map Prod.snd) s.agents_db
        ⟨none, none, none⟩).mpr ⟨rfl, h1⟩)
    · exact Or.inr (Or.inl ((scan_foldl_tmpl_none (s.connections_db.map Prod.snd) s.agents_db
        ⟨none, none, none⟩).mpr ⟨rfl, h2⟩))
    · exact Or.inr (Or.inr ((scan_foldl_llm_none (s.connections_db.map Prod.snd) s.agents_db
        ⟨none, none, none⟩).mpr ⟨rfl, h3⟩))
  suffices hs : ∃ r : RunResponse, r.status = 400 ∧ r.error.isSome = true
      ∧ r.execution_order = none ∧ r.final_outputs = none
      ∧ (∀ fn : ChainFn, run_flow true s fn = r) by
    obtain ⟨r, h1, h2, h3, h4, h5⟩ := hs
    rw [h5 f, h5 g]
    exact ⟨h1, h2, h3, h4, rfl⟩
  rcases hi : (scanNodes s.agents_db (s.connections_db.map Prod.snd)).inp with _ | i
  · refine ⟨{ status := 400
              error := some "InputNode not found or not configured as a starting node in the flow."
              message := none
              execution_order := none
              final_outputs := none
              simulation_details := some ["Error: InputNode missing."] },
      rfl, rfl, rfl, rfl, fun fn => ?_⟩
    simp [run_flow, hi]
  · rcases ht : (scanNodes s.agents_db (s.connections_db.map Prod.snd)).tmpl with _ | t
    · refine ⟨{ status := 400
                error := some "PromptTemplateNode not found in the flow."
                message := none
                execution_order := none
                final_outputs := none
                simulation_details := some ["Error: PromptTemplateNode missing."] },
        rfl, rfl, rfl, rfl, fun fn => ?_⟩
      simp [run_flow, hi, ht]
    · rcases hl : (scanNodes s.agents_db (s.connections_db.map Prod.snd)).llm with _ | l
      · refine ⟨{ status := 400
                  error := some "GeminiLLMNode not found in the flow."
                  message := none
                  execution_order := none
                  final_outputs := none
                  simulation_details := some ["Error: GeminiLLMNode missing."] },
          rfl, rfl, rfl, rfl, fun fn => ?_⟩
        simp [run_flow, hi, ht, hl]
      · exfalso
        rcases hd with h1 | h2 | h3
        · rw [h1] at hi
          exact Option.noConfusion hi
        · rw [h2] at ht
          exact Option.noConfusion ht
        · rw [h3] at hl
          exact Option.noConfusion hl

/-- Witness for C1: the empty store is missing every required role, and
`run_flow` returns the terminal error without invoking the collaborator. -/
theorem c1_witness :
    (run_flow true emptyStore stubChain).status = 400
    ∧ (run_flow true emptyStore stubChain).error.isSome = true
    ∧ (run_flow true emptyStore stubChain).execution_order = none
    ∧ (run_flow true emptyStore stubChain).final_outputs = none
    ∧ run_flow true emptyStore stubChain = run_flow true emptyStore stubChainErr :=
  c1_strict_missing_role_terminal emptyStore stubChain stubChainErr (Or.inl (by simp [emptyStore]))

/-- C2 counterexample: in `stTargetedEntry` the entry-typed node `"i"` is
the target of a connection; contrary to the claim, `run_flow` does not
select it as the start — it reports that no InputNode is configured as a
starting node, and selects nothing. -/
theorem c2_counterexample :
    (("i", inpAgent) ∈ stTargetedEntry.agents_db
      ∧ jsonEqStr inpAgent.type "InputNode" = true
      ∧ is_target (stTargetedEntry.connections_db.map Prod.snd) "i" = true)
    ∧ (run_flow true stTargetedEntry stubChain).error
        = some "InputNode not found or not configured as a starting node in the flow."
    ∧ (run_flow true stTargetedEntry stubChain).execution_order = none
    ∧ (scanNodes stTargetedEntry.agents_db (stTargetedEntry.connections_db.map Prod.snd)).inp = none :=
  ⟨⟨List.Mem.tail _ (List.Mem.head _), rfl, rfl⟩, rfl, rfl, rfl⟩

/-- C2 amended: an entry-typed node is selected as the flow's start only
when it is not the target of any connection; when every entry-typed node
is the target of some connection, `run_flow` returns the InputNode-missing
error instead of starting at one of them. -/
theorem c2_entry_eligibility (s : Store) (f : ChainFn) :
    (∀ p, (scanNodes s.agents_db (s.connections_db.map Prod.snd)).inp = some p →
      jsonEqStr p.2.type "InputNode" = true
        ∧ is_target (s.connections_db.map Prod.snd) p.1 = false
        ∧ p ∈ s.agents_db)
    ∧ ((∀ p ∈ s.agents_db, jsonEqStr p.2.type "InputNode" = true →
          is_target (s.connections_db.map Prod.snd) p.1 = true) →
        (run_flow true s f).error
          = some "InputNode not found or not configured as a starting node in the flow.") := by
  constructor
  · intro p hp
    rcases scan_foldl_inp_some (s.connections_db.map Prod.snd) s.agents_db ⟨none, none, none⟩ p hp
      with h | h
    · exact h
    · exact Option.noConfusion h
  · intro hall
    have hnone : (scanNodes s.agents_db (s.connections_db.map Prod.snd)).inp = none := by
      apply (scan_foldl_inp_none (s.connections_db.map Prod.snd) s.agents_db ⟨none, none, none⟩).mpr
      refine ⟨rfl, fun p hp => ?_⟩
      cases hI : jsonEqStr p.2.type "InputNode" with
      | false => simp
      | true => simp [hall p hp hI]
    simp [run_flow, hnone]

/-- Witness for C2 amended: in the connection-free pipeline store the
selected start node is the entry node, untargeted and present. -/
theorem c2_entry_eligibility_witness :
    jsonEqStr ("i", inpAgent).2.type "InputNode" = true
    ∧ is_target (stPipeline.connections_db.map Prod.snd) ("i", inpAgent).1 = false
    ∧ ("i", inpAgent) ∈ stPipeline.agents_db :=
  (c2_entry_eligibility stPipeline stubChain).1 ("i", inpAgent) rfl

/-- C4 counterexample: on a store with zero nodes the run does not return
an empty completed report — the error field is set, the execution order
and output map are absent from the response rather than empty. -/
theorem c4_counterexample :
    ¬ ((run_flow true emptyStore stubChain).error = none
      ∧ (run_flow true emptyStore stubChain).execution_order = some []
      ∧ (run_flow true emptyStore stubChain).final_outputs = some []) := by
  decide

/-- C4 amended: a run over a snapshot with zero nodes (API key present)
returns the terminal InputNode-missing error report: HTTP 400, an error
message, and no execution-order or output-map keys in the response. -/
theorem c4_empty_store_errors (cs : List (String × Connection)) (f : ChainFn) :
    run_flow true { agents_db := [], connections_db := cs } f =
      { status := 400
        error := some "InputNode not found or not configured as a starting node in the flow."
        message := none
        execution_order := none
        final_outputs := none
        simulation_details := some ["Error: InputNode missing."] } := rfl

/-- C6: when the required credential (`GOOGLE_API_KEY`) is absent,
`run_flow` fails fast with a fixed 500 error report carrying an empty
execution order and empty outputs — the result depends neither on the
store (no node is scheduled or evaluated) nor on the LangChain
collaborator (no external call is made). -/
theorem c6_missing_credential_fail_fast (s : Store) (f : ChainFn) :
    run_flow false s f =
      { status := 500
        error := some "GOOGLE_API_KEY environment variable not set on the server."
        message := none
        execution_order := some []
        final_outputs := some []
        simulation_details := some ["Error: GOOGLE_API_KEY not set."] } := rfl

/-- C5: for every run that reaches the templated-prompt step (all three
roles identified, chain input a dict), an absent or empty template string
makes `run_flow` return the 400 configuration error visible to the caller,
and the result does not depend on the LangChain collaborator (the
generative-model call is never made). -/
theorem c5_empty_template_aborts (s : Store) (f g : ChainFn) (i t l : String × Agent)
    (ci ct : List (String × JsonVal)) (m : List (String × JsonVal))
    (hscan : scanNodes s.agents_db (s.connections_db.map Prod.snd) = ⟨some i, some t, some l⟩)
    (hci : i.2.config = .obj ci)
    (hval : (List.lookup "value" ci).getD (.obj []) = .obj m)
    (hct : t.2.config = .obj ct)
    (hts : List.lookup "template_string" ct = none
      ∨ List.lookup "template_string" ct = some (.str "")) :
    run_flow true s f =
      { status := 400
        error := some "PromptTemplateNode has no template_string configured."
        message := none
        execution_order := none
        final_outputs := none
        simulation_details := none }
    ∧ run_flow true s f = run_flow true s g := by
  have key : ∀ fn : ChainFn, run_flow true s fn =
      { status := 400
        error := some "PromptTemplateNode has no template_string configured."
        message := none
        execution_order := none
        final_outputs := none
        simulation_details := none } := by
    intro fn
    have hts' : (List.lookup "template_string" ct).getD (.str "") = .str "" := by
      rcases hts with h | h <;> simp [h]
    simp [run_flow, hscan, runTry, hci, hval, hct, hts', pyTruthy]
  exact ⟨key f, (key f).trans (key g).symm⟩

/-- Witness for C5: the pipeline store whose template node carries an
empty `template_string` aborts with the configuration error, with both
stub collaborators giving the same report. -/
theorem c5_witness :
    run_flow true stEmptyTemplate stubChain =
      { status := 400
        error := some "PromptTemplateNode has no template_string configured."
        message := none
        execution_order := none
        final_outputs := none
        simulation_details := none }
    ∧ run_flow true stEmptyTemplate stubChain = run_flow true stEmptyTemplate stubChainErr :=
  c5_empty_template_aborts stEmptyTemplate stubChain stubChainErr
    ("i", inpAgent) ("t", tmplAgentEmpty) ("l", llmAgent)
    [("value", .obj [("text", .str "hi")])] [("template_string", .str "")]
    [("text", .str "hi")] rfl rfl rfl rfl (Or.inr rfl)

/-- C3 counterexample: on a successful run of the pipeline store, the
execution order lists the input, template and model nodes, but the output
map records only the model node — the input node id has no entry, so the
output map does not contain an entry for every node of the order. -/
theorem c3_counterexample :
    ¬ (∀ (m : List (String × String)) (ord : List String),
        (run_flow true stPipeline stubChain).final_outputs = some m →
        (run_flow true stPipeline stubChain).execution_order = some ord →
        ∀ nid ∈ ord, (List.lookup nid m).isSome = true) := by
  intro hcl
  have h := hcl [("l", "stub-response")] ["i", "t", "l"] rfl rfl "i" (List.Mem.head _)
  exact absurd h (by decide)

/-- C3 amended: the output map never mentions a node outside the execution
order — every key of the output map appears in the order (on a completed
run the map holds exactly the model node's response; on a failed run order
and outputs are empty or absent) — but the converse of the claim fails:
scheduled entry and template nodes get no entry in the output map. -/
theorem c3_outputs_within_order (b : Bool) (s : Store) (f : ChainFn)
    (m : List (String × String)) (k : String) (v : String)
    (hm : (run_flow b s f).final_outputs = some m)
    (hkv : (k, v) ∈ m) :
    ∃ ord, (run_flow b s f).execution_order = some ord ∧ k ∈ ord := by
  cases b with
  | false =>
    simp [run_flow] at hm
    rw [hm] at hkv
    exact absurd hkv (List.not_mem_nil _)
  | true =>
    rcases hi : (scanNodes s.agents_db (s.connections_db.map Prod.snd)).inp with _ | i
    · simp [run_flow, hi] at hm
    · rcases ht : (scanNodes s.agents_db (s.connections_db.map Prod.snd)).tmpl with _ | t
      · simp [run_flow, hi, ht] at hm
      · rcases hl : (scanNodes s.agents_db (s.connections_db.map Prod.snd)).llm with _ | l
        · simp [run_flow, hi, ht, hl] at hm
        · have hrt : run_flow true s f = runTry i t l f := by
            simp [run_flow, hi, ht, hl]
          rw [hrt] at hm ⊢
          rcases hci : i.2.config with _ | b1 | n1 | s1 | ci | a1
          case null | bool | num | str | arr =>
            simp [runTry, hci, excResponse] at hm
            rw [hm] at hkv
            exact absurd hkv (List.not_mem_nil _)
          case obj =>
            rcases hval : (List.lookup "value" ci).getD (.obj []) with _ | b2 | n2 | s2 | m2 | a2
            case null | bool | num | str | arr =>
              simp [runTry, hci, hval] at hm
            case obj =>
              rcases hct : t.2.config with _ | b3 | n3 | s3 | ct | a3
              case null | bool | num | str | arr =>
                simp [runTry, hci, hval, hct, excResponse] at hm
                rw [hm] at hkv
                exact absurd hkv (List.not_mem_nil _)
              case obj =>
                by_cases hpt : pyTruthy ((List.lookup "template_string" ct).getD (.str "")) = false
                · simp [runTry, hci, hval, hct, hpt] at hm
                · rcases hcl : l.2.config with _ | b4 | n4 | s4 | cl | a4
                  · simp [runTry, hci, hval, hct, hpt, hcl, excResponse] at hm
                    rw [hm] at hkv
                    exact absurd hkv (List.not_mem_nil _)
                  · simp [runTry, hci, hval, hct, hpt, hcl, excResponse] at hm
                    rw [hm] at hkv
                    exact absurd hkv (List.not_mem_nil _)
                  · simp [runTry, hci, hval, hct, hpt, hcl, excResponse] at hm
                    rw [hm] at hkv
                    exact absurd hkv (List.not_mem_nil _)
                  · simp [runTry, hci, hval, hct, hpt, hcl, excResponse] at hm
                    rw [hm] at hkv
                    exact absurd hkv (List.not_mem_nil _)
                  · rcases hres : f ((List.lookup "template_string" ct).getD (.str ""))
                        ((List.lookup "model_name" cl).getD (.str "gemini-pro"))
                        ((List.lookup "temperature" cl).getD (.num "0.7"))
                        (JsonVal.obj m2) with e | resp
                    · simp [runTry, hci, hval, hct, hpt, hcl, hres, excResponse] at hm
                      rw [hm] at hkv
                      exact absurd hkv (List.not_mem_nil _)
                    · have hout : (runTry i t l f).final_outputs = some [(l.2.id, resp)] := by
                        simp [runTry, hci, hval, hct, hpt, hcl, hres]
                      have hord : (runTry i t l f).execution_order
                          = some [i.2.id, t.2.id, l.2.id] := by
                        simp [runTry, hci, hval, hct, hpt, hcl, hres]
                      rw [hout] at hm
                      have hm' : m = [(l.2.id, resp)] := (Option.some.inj hm).symm
                      rw [hm'] at hkv
                      have hk : k = l.2.id := by
                        rcases List.mem_cons.mp hkv with heq | habs
                        · exact congrArg Prod.fst heq
                        · exact absurd habs (List.not_mem_nil _)
                      refine ⟨[i.2.id, t.2.id, l.2.id], hord, ?_⟩
                      rw [hk]
                      exact List.Mem.tail _ (List.Mem.tail _ (List.Mem.head _))
                  · simp [runTry, hci, hval, hct, hpt, hcl, excResponse] at hm
                    rw [hm] at hkv
                    exact absurd hkv (List.not_mem_nil _)

/-- Witness for C3 amended: on the pipeline store, the single output key
(the model node) is in the execution order. -/
theorem c3_witness :
    ∃ ord, (run_flow true stPipeline stubChain).execution_order = some ord ∧ "l" ∈ ord :=
  c3_outputs_within_order true stPipeline stubChain [("l", "stub-response")] "l" "stub-response"
    rfl (List.Mem.head _)

theorem beq_comm_false (k q : String) (h : (q == k) = false) : (k == q) = false := by
  rw [beq_eq_false_iff_ne] at h ⊢
  exact fun he => h he.symm

theorem mem_lookup_isSome {α : Type} (db : List (String × α)) (k : String) (a : α)
    (h : (k, a) ∈ db) : (List.lookup k db).isSome = true := by
  induction db with
  | nil => exact absurd h (List.not_mem_nil _)
  | cons q rest ih =>
    rcases List.mem_cons.mp h with heq | h'
    · rw [← heq]
      simp [List.lookup]
    · by_cases hq : (k == q.1) = true <;> simp [List.lookup, hq, ih h']

theorem any_key_dbInsert {α : Type} (db : List (String × α)) (k : String) (v : α)
    (f : String → Bool) (h : db.any (fun p => f p.1) = true) :
    (dbInsert db k v).any (fun p => f p.1) = true := by
  unfold dbInsert
  by_cases hex : db.any (fun p => p.1 == k) = true
  · rw [if_pos hex]
    rw [List.any_eq_true] at h ⊢
    obtain ⟨p, hp, hfp⟩ := h
    refine ⟨if p.1 == k then (k, v) else p, List.mem_map_of_mem _ hp, ?_⟩
    by_cases hpk : (p.1 == k) = true
    · rw [if_pos hpk]
      have : p.1 = k := eq_of_beq hpk
      rw [← this]
      exact hfp
    · rw [if_neg hpk]
      exact hfp
  · rw [if_neg hex]
    rw [List.any_append, h]
    rfl

theorem mem_dbInsert {α : Type} {db : List (String × α)} {k : String} {v : α} {p : String × α}
    (h : p ∈ dbInsert db k v) : p ∈ db ∨ p = (k, v) := by
  unfold dbInsert at h
  by_cases hex : db.any (fun q => q.1 == k) = true
  · rw [if_pos hex] at h
    rcases List.mem_map.mp h with ⟨q, hq, hfq⟩
    by_cases hqk : (q.1 == k) = true
    · rw [if_pos hqk] at hfq
      exact Or.inr hfq.symm
    · rw [if_neg hqk] at hfq
      exact Or.inl (hfq ▸ hq)
  · rw [if_neg hex] at h
    rcases List.mem_append.mp h with h' | h'
    · exact Or.inl h'
    · exact Or.inr (by simpa using h')

theorem lookup_append_single {α : Type} (db : List (String × α)) (k w : String) (v : α)
    (h : (w == k) = false) :
    List.lookup w (db ++ [(k, v)]) = List.lookup w db := by
  induction db with
  | nil => simp [List.lookup, h]
  | cons q rest ih =>
    by_cases hq : (w == q.1) = true <;> simp [List.lookup, hq, ih]

theorem lookup_append_single_self {α : Type} (db : List (String × α)) (k : String) (v : α)
    (hex : db.any (fun p => p.1 == k) = false) :
    List.lookup k (db ++ [(k, v)]) = some v := by
  induction db with
  | nil => simp [List.lookup]
  | cons q rest ih =>
    rw [List.any_cons] at hex
    rw [Bool.or_eq_false_iff] at hex
    obtain ⟨hqk, hrest⟩ := hex
    have hkq : (k == q.1) = false := beq_comm_false _ _ hqk
    simp [List.cons_append, List.lookup, hkq, ih hrest]

theorem lookup_map_overwrite {α : Type} (db : List (String × α)) (k w : String) (v : α)
    (h : (w == k) = false) :
    List.lookup w (db.map (fun p => if p.1 == k then (k, v) else p)) = List.lookup w db := by
  induction db with
  | nil => simp
  | cons q rest ih =>
    rw [List.map_cons]
    by_cases hqk : (q.1 == k) = true
    · have hq : q.1 = k := eq_of_beq hqk
      rw [if_pos hqk]
      have hwq : (w == q.1) = false := by
        rw [hq]
        exact h
      have ih' := ih
      simp at ih'
      simp [List.lookup, h, hwq, ih']
    · rw [if_neg hqk]
      have ih' := ih
      simp at ih'
      by_cases hwq : (w == q.1) = true <;> simp [List.lookup, hwq, ih']

theorem lookup_map_overwrite_self {α : Type} (db : List (String × α)) (k : String) (v : α)
    (hex : db.any (fun p => p.1 == k) = true) :
    List.lookup k (db.map (fun p => if p.1 == k then (k, v) else p)) = some v := by
  induction db with
  | nil => simp at hex
  | cons q rest ih =>
    rw [List.map_cons]
    by_cases hqk : (q.1 == k) = true
    · rw [if_pos hqk]
      simp [List.lookup]
    · rw [if_neg hqk]
      have hex' : rest.any (fun p => p.1 == k) = true := by
        rcases List.any_eq_true.mp hex with ⟨p, hp, hpk⟩
        rcases List.mem_cons.mp hp with rfl | hp'
        · exact absurd hpk hqk
        · exact List.any_eq_true.mpr ⟨p, hp', hpk⟩
      have hqk' : (q.1 == k) = false := by
        cases hb : (q.1 == k) with
        | false => rfl
        | true => exact absurd hb hqk
      have hkq : (k == q.1) = false := beq_comm_false _ _ hqk'
      have ih' := ih hex'
      simp at ih'
      simp [List.lookup, hkq, ih']

theorem lookup_dbInsert_self {α : Type} (db : List (String × α)) (k : String) (v : α) :
    List.lookup k (dbInsert db k v) = some v := by
  unfold dbInsert
  by_cases hex : db.any (fun p => p.1 == k) = true
  · rw [if_pos hex]
    exact lookup_map_overwrite_self db k v hex
  · rw [if_neg hex]
    have hex' : db.any (fun p => p.1 == k) = false := by
      cases hb : db.any (fun p => p.1 == k) with
      | false => rfl
      | true => exact absurd hb hex
    exact lookup_append_single_self db k v hex'

theorem lookup_dbInsert_ne {α : Type} (db : List (String × α)) (k w : String) (v : α)
    (h : (w == k) = false) :
    List.lookup w (dbInsert db k v) = List.lookup w db := by
  unfold dbInsert
  by_cases hex : db.any (fun p => p.1 == k) = true
  · rw [if_pos hex]
    exact lookup_map_overwrite db k w v h
  · rw [if_neg hex]
    exact lookup_append_single db k w v h

theorem lookup_eq_none_of_forall {α : Type} (l : List (String × α)) (k : String)
    (h : ∀ p ∈ l, (k == p.1) = false) : List.lookup k l = none := by
  induction l with
  | nil => rfl
  | cons q rest ih =>
    simp [List.lookup, h q (List.mem_cons_self q rest),
      ih (fun p hp => h p (List.mem_cons_of_mem q hp))]

theorem lookup_dictMerge (d c : List (String × JsonVal)) (hnd : (c.map Prod.fst).Nodup)
    (k : String) :
    List.lookup k (dictMerge d c) =
      match List.lookup k c with
      | some v => some v
      | none => List.lookup k d := by
  induction c generalizing d with
  | nil => simp [dictMerge, List.lookup]
  | cons q rest ih =>
    rw [List.map_cons, List.nodup_cons] at hnd
    obtain ⟨hq1, hnd'⟩ := hnd
    have step : dictMerge d (q :: rest) = dictMerge (dictInsert d q.1 q.2) rest := rfl
    rw [step, ih _ hnd']
    by_cases hk : (k == q.1) = true
    · have hkq : k = q.1 := eq_of_beq hk
      have hrest : List.lookup k rest = none := by
        apply lookup_eq_none_of_forall
        intro p hp
        rw [beq_eq_false_iff_ne]
        intro he
        exact hq1 (by
          have hqp : q.1 = p.1 := by rw [← hkq, he]
          rw [hqp]
          exact List.mem_map_of_mem Prod.fst hp)
      rw [hrest]
      have hself : List.lookup k (dictInsert d q.1 q.2) = some q.2 := by
        rw [hkq]
        exact lookup_dbInsert_self d q.1 q.2
      simp [List.lookup, hk, hself]
    · have hkf : (k == q.1) = false := by
        cases hb : (k == q.1) with
        | false => rfl
        | true => exact absurd hb hk
      cases hlr : List.lookup k rest with
      | some v => simp [List.lookup, hkf, hlr]
      | none =>
        have hne : List.lookup k (dictInsert d q.1 q.2) = List.lookup k d :=
          lookup_dbInsert_ne d q.1 k q.2 hkf
        simp [List.lookup, hkf, hlr, hne]

theorem dictMerge_eq_append (d c : List (String × JsonVal)) (hnd : (c.map Prod.fst).Nodup)
    (hdisj : ∀ p ∈ c, d.any (fun r => r.1 == p.1) = false) :
    dictMerge d c = d ++ c := by
  induction c generalizing d with
  | nil => simp [dictMerge]
  | cons q rest ih =>
    rw [List.map_cons, List.nodup_cons] at hnd
    obtain ⟨hq1, hnd'⟩ := hnd
    have step : dictMerge d (q :: rest) = dictMerge (dictInsert d q.1 q.2) rest := rfl
    have hins : dictInsert d q.1 q.2 = d ++ [(q.1, q.2)] := by
      unfold dictInsert dbInsert
      rw [if_neg (by simp [hdisj q (List.mem_cons_self q rest)])]
    rw [step, hins, ih _ hnd' ?_, List.append_assoc, List.singleton_append]
    intro p hp
    rw [List.any_append]
    have h1 : d.any (fun r => r.1 == p.1) = false := hdisj p (List.mem_cons_of_mem q hp)
    have h2 : (q.1 == p.1) = false := by
      rw [beq_eq_false_iff_ne]
      intro he
      exact hq1 (he ▸ List.mem_map_of_mem Prod.fst hp)
    simp [h1, h2]

theorem dictMerge_nil_eq (c : List (String × JsonVal)) (hnd : (c.map Prod.fst).Nodup) :
    dictMerge [] c = c := by
  have h := dictMerge_eq_append [] c hnd (fun p _ => rfl)
  simpa using h

/-- C7: the referential-integrity invariant (every connection's source and
target id equal an existing agent key) is preserved by every store
operation; moreover connection creation leaves the store unchanged and
rejects (status not 201) when an endpoint id does not name an existing
agent, and agent deletion leaves no connection whose source or target is
the deleted agent. -/
theorem c7_store_invariant (s : Store) (op : StoreOp) (hInv : edgeInvariantB s = true) :
    edgeInvariantB (applyOp s op) = true
    ∧ (∀ newId data src tgt,
        List.lookup "source_agent_id" data = some src →
        List.lookup "target_agent_id" data = some tgt →
        (agentKeyExists s src = false ∨ agentKeyExists s tgt = false) →
        (create_connection s newId data).1 = s ∧ (create_connection s newId data).2 ≠ 201)
    ∧ (∀ aid p, p ∈ (delete_agent s aid).1.connections_db →
        jsonEqStr p.2.source_agent_id aid = false
          ∧ jsonEqStr p.2.target_agent_id aid = false) := by
  refine ⟨?_, ?_, ?_⟩
  · cases op with
    | createAgent newId data =>
      simp only [applyOp, create_agent]
      split
      · exact hInv
      · split
        · exact hInv
        · split
          · exact hInv
          · unfold edgeInvariantB at hInv ⊢
            rw [List.all_eq_true] at hInv ⊢
            intro p hp
            have h := hInv p hp
            simp only [Bool.and_eq_true] at h ⊢
            exact ⟨any_key_dbInsert _ _ _ _ h.1, any_key_dbInsert _ _ _ _ h.2⟩
    | updateAgent aid data =>
      simp only [applyOp, update_agent]
      split
      · exact hInv
      · split
        · exact hInv
        · unfold edgeInvariantB at hInv ⊢
          rw [List.all_eq_true] at hInv ⊢
          intro p hp
          have h := hInv p hp
          simp only [Bool.and_eq_true] at h ⊢
          exact ⟨any_key_dbInsert _ _ _ _ h.1, any_key_dbInsert _ _ _ _ h.2⟩
    | deleteAgent aid =>
      simp only [applyOp, delete_agent]
      split
      · exact hInv
      · unfold edgeInvariantB at hInv ⊢
        rw [List.all_eq_true] at hInv ⊢
        intro p hp
        obtain ⟨hpmem, hpcond⟩ := List.mem_filter.mp hp
        have h := hInv p hpmem
        simp only [Bool.and_eq_true] at h ⊢
        have h1 : jsonEqStr p.2.source_agent_id aid = false := by
          cases hb : jsonEqStr p.2.source_agent_id aid with
          | false => rfl
          | true =>
            rw [hb] at hpcond
            simp at hpcond
        have h2 : jsonEqStr p.2.target_agent_id aid = false := by
          cases hb : jsonEqStr p.2.target_agent_id aid with
          | false => rfl
          | true =>
            rw [hb] at hpcond
            simp at hpcond
        constructor
        · obtain ⟨q, hq, hjq⟩ := List.any_eq_true.mp h.1
          refine List.any_eq_true.mpr ⟨q, List.mem_filter.mpr ⟨hq, ?_⟩, hjq⟩
          cases hb : (q.1 == aid) with
          | false => rfl
          | true =>
            have hqa : q.1 = aid := eq_of_beq hb
            rw [hqa] at hjq
            rw [h1] at hjq
            exact Bool.noConfusion hjq
        · obtain ⟨q, hq, hjq⟩ := List.any_eq_true.mp h.2
          refine List.any_eq_true.mpr ⟨q, List.mem_filter.mpr ⟨hq, ?_⟩, hjq⟩
          cases hb : (q.1 == aid) with
          | false => rfl
          | true =>
            have hqa : q.1 = aid := eq_of_beq hb
            rw [hqa] at hjq
            rw [h2] at hjq
            exact Bool.noConfusion hjq
    | createConnection newId data =>
      simp only [applyOp, create_connection]
      split
      · exact hInv
      · split
        · exact hInv
        · rename_i hflds hex
          have hex' : (agentKeyExists s ((List.lookup "source_agent_id" data).getD .null)
              && agentKeyExists s ((List.lookup "target_agent_id" data).getD .null)) = true := by
            cases hb : (agentKeyExists s ((List.lookup "source_agent_id" data).getD .null)
                && agentKeyExists s ((List.lookup "target_agent_id" data).getD .null)) with
            | true => rfl
            | false => exact absurd hb hex
          simp only [Bool.and_eq_true] at hex'
          unfold edgeInvariantB at hInv ⊢
          rw [List.all_eq_true] at hInv ⊢
          intro p hp
          rcases mem_dbInsert hp with hold | hnew
          · exact hInv p hold
          · rw [hnew]
            simp only [Bool.and_eq_true]
            exact ⟨hex'.1, hex'.2⟩
    | deleteConnection cid =>
      simp only [applyOp, delete_connection]
      split
      · exact hInv
      · unfold edgeInvariantB at hInv ⊢
        rw [List.all_eq_true] at hInv ⊢
        intro p hp
        exact hInv p (List.mem_filter.mp hp).1
  · intro newId data src tgt hs ht hmiss
    simp only [create_connection]
    by_cases hflds : (((List.lookup "source_agent_id" data).isSome
        && (List.lookup "target_agent_id" data).isSome)
        && ((List.lookup "source_port" data).isSome && (List.lookup "target_port" data).isSome))
        = false
    · rw [if_pos hflds]
      exact ⟨rfl, show (400 : Nat) ≠ 201 by decide⟩
    · rw [if_neg hflds]
      have hcond : (agentKeyExists s ((List.lookup "source_agent_id" data).getD .null)
          && agentKeyExists s ((List.lookup "target_agent_id" data).getD .null)) = false := by
        rw [hs, ht]
        simp only [Option.getD_some]
        rcases hmiss with hm | hm <;> simp [hm]
      rw [if_pos hcond]
      exact ⟨rfl, show (404 : Nat) ≠ 201 by decide⟩
  · intro aid p hp
    simp only [delete_agent] at hp
    by_cases hnf : ((List.lookup aid s.agents_db).isSome = false)
    · rw [if_pos hnf] at hp
      unfold edgeInvariantB at hInv
      rw [List.all_eq_true] at hInv
      have h := hInv p hp
      simp only [Bool.and_eq_true] at h
      constructor
      · cases hb : jsonEqStr p.2.source_agent_id aid with
        | false => rfl
        | true =>
          exfalso
          obtain ⟨q, hq, hjq⟩ := List.any_eq_true.mp h.1
          rw [jsonEqStr_eq_iff] at hb hjq
          have hq1 : q.1 = aid := by
            have := hjq.symm.trans hb
            exact (JsonVal.str.injEq _ _ ▸ this)
          have hsome : (List.lookup q.1 s.agents_db).isSome = true :=
            mem_lookup_isSome s.agents_db q.1 q.2 hq
          rw [hq1] at hsome
          rw [hsome] at hnf
          exact Bool.noConfusion hnf
      · cases hb : jsonEqStr p.2.target_agent_id aid with
        | false => rfl
        | true =>
          exfalso
          obtain ⟨q, hq, hjq⟩ := List.any_eq_true.mp h.2
          rw [jsonEqStr_eq_iff] at hb hjq
          have hq1 : q.1 = aid := by
            have := hjq.symm.trans hb
            exact (JsonVal.str.injEq _ _ ▸ this)
          have hsome : (List.lookup q.1 s.agents_db).isSome = true :=
            mem_lookup_isSome s.agents_db q.1 q.2 hq
          rw [hq1] at hsome
          rw [hsome] at hnf
          exact Bool.noConfusion hnf
    · rw [if_neg hnf] at hp
      obtain ⟨-, hpcond⟩ := List.mem_filter.mp hp
      constructor
      · cases hb : jsonEqStr p.2.source_agent_id aid with
        | false => rfl
        | true =>
          rw [hb] at hpcond
          simp at hpcond
      · cases hb : jsonEqStr p.2.target_agent_id aid with
        | false => rfl
        | true =>
          rw [hb] at hpcond
          simp at hpcond

/-- Witness for C7: deleting the targeted entry node from
`stTargetedEntry` (which satisfies the invariant) preserves the
invariant, cascading the deletion of the connection that references it. -/
theorem c7_witness :
    edgeInvariantB (applyOp stTargetedEntry (StoreOp.deleteAgent "i")) = true :=
  (c7_store_invariant stTargetedEntry (StoreOp.deleteAgent "i") (by decide)).1

/-- C8: the port resolver, for a node with two incoming edges (in edge
order) whose sources have recorded outputs, returns the two stringified
outputs joined by a single space and trimmed; in particular outputs
`"A"` and `"B"` give `"A B"`. -/
theorem c8_resolve_input_two_edges (n : String) (edges : List Connection)
    (outputs : List (String × JsonVal)) (e1 e2 : Connection) (s1 s2 : String) (a b : JsonVal)
    (hfilter : edges.filter (fun e => jsonEqStr e.target_agent_id n) = [e1, e2])
    (h1 : e1.source_agent_id = .str s1) (h2 : e2.source_agent_id = .str s2)
    (o1 : List.lookup s1 outputs = some a) (o2 : List.lookup s2 outputs = some b) :
    resolve_input n edges outputs = pyTrim (pyStr a ++ " " ++ pyStr b) := by
  unfold resolve_input
  rw [hfilter]
  simp [List.filterMap, h1, h2, o1, o2, joinSpace]

/-- Witness for C8: two edges into node `"n"` from sources with outputs
`"A"` and `"B"` resolve to `"A B"`. -/
theorem c8_witness :
    resolve_input "n"
      [{ id := "e1", source_agent_id := .str "a", target_agent_id := .str "n"
         source_port := .null, target_port := .null },
       { id := "e2", source_agent_id := .str "b", target_agent_id := .str "n"
         source_port := .null, target_port := .null }]
      [("a", .str "A"), ("b", .str "B")] = "A B" :=
  (c8_resolve_input_two_edges "n"
      [{ id := "e1", source_agent_id := .str "a", target_agent_id := .str "n"
         source_port := .null, target_port := .null },
       { id := "e2", source_agent_id := .str "b", target_agent_id := .str "n"
         source_port := .null, target_port := .null }]
      [("a", .str "A"), ("b", .str "B")]
      { id := "e1", source_agent_id := .str "a", target_agent_id := .str "n"
        source_port := .null, target_port := .null }
      { id := "e2", source_agent_id := .str "b", target_agent_id := .str "n"
        source_port := .null, target_port := .null }
      "a" "b" (.str "A") (.str "B") rfl rfl rfl rfl rfl).trans (by rfl)

/-- C9: for every type string, `create_agent` stores a configuration
equal to the type's registered default overridden key-by-key by the
request configuration (request wins); for an unregistered type string the
stored configuration is exactly the request's (empty when none was
given), and creation never rejects an unrecognized type string. -/
theorem c9_create_agent_defaults (s : Store) (newId : String)
    (data : List (String × JsonVal)) (ts : String) (c : List (String × JsonVal))
    (hn : (List.lookup "name" data).isSome = true)
    (ht : List.lookup "type" data = some (.str ts))
    (hc : userConfig data = some c)
    (hnd : (c.map Prod.fst).Nodup) :
    (create_agent s newId data).2 = CreateResult.created
      { id := newId
        name := (List.lookup "name" data).getD .null
        type := .str ts
        config := .obj (dictMerge ((DEFAULT_CONFIGS ts).getD []) c)
        position := (List.lookup "position" data).getD (.obj [("x", .num "0"), ("y", .num "0")]) }
    ∧ (∀ k, List.lookup k (dictMerge ((DEFAULT_CONFIGS ts).getD []) c) =
        match List.lookup k c with
        | some v => some v
        | none => List.lookup k ((DEFAULT_CONFIGS ts).getD []))
    ∧ (DEFAULT_CONFIGS ts = none → dictMerge ((DEFAULT_CONFIGS ts).getD []) c = c) := by
  refine ⟨?_, fun k => lookup_dictMerge _ _ hnd k, fun h => by
    rw [h]
    exact dictMerge_nil_eq c hnd⟩
  simp [create_agent, defaultsFor, hn, ht, hc]

/-- Witness for C9: an unrecognized type string (`"FancyNode"`) is
accepted, and the stored config is the request's config merged over the
(empty) default. -/
theorem c9_witness :
    (create_agent emptyStore "id1"
      [("name", .str "n"), ("type", .str "FancyNode"), ("config", .obj [("a", .str "1")])]).2
      = CreateResult.created
        { id := "id1"
          name := .str "n"
          type := .str "FancyNode"
          config := .obj (dictMerge ((DEFAULT_CONFIGS "FancyNode").getD []) [("a", .str "1")])
          position := .obj [("x", .num "0"), ("y", .num "0")] } :=
  (c9_create_agent_defaults emptyStore "id1"
    [("name", .str "n"), ("type", .str "FancyNode"), ("config", .obj [("a", .str "1")])]
    "FancyNode" [("a", .str "1")] rfl rfl rfl (by simp)).1

/-- C10: `update_agent` on an existing agent keeps the id unchanged, keeps
every field absent from the request at its previous value, and replaces
the stored configuration wholesale (no merging) whenever the request
carries a configuration value other than JSON null — including the empty
mapping. -/
theorem c10_update_agent_frame (s : Store) (aid : String)
    (data : List (String × JsonVal)) (a : Agent)
    (ha : List.lookup aid s.agents_db = some a)
    (hne : data.isEmpty = false) :
    (update_agent s aid data).2 = 200
    ∧ ∃ new : Agent, List.lookup aid (update_agent s aid data).1.agents_db = some new
      ∧ new.id = a.id
      ∧ (List.lookup "name" data = none → new.name = a.name)
      ∧ (List.lookup "type" data = none → new.type = a.type)
      ∧ (List.lookup "position" data = none → new.position = a.position)
      ∧ (List.lookup "config" data = none → new.config = a.config)
      ∧ (∀ v, List.lookup "config" data = some v → v ≠ .null → new.config = v) := by
  have hres : update_agent s aid data =
      (Store.mk
        (dbInsert s.agents_db aid
          (Agent.mk a.id
            ((List.lookup "name" data).getD a.name)
            ((List.lookup "type" data).getD a.type)
            (match List.lookup "config" data with
              | some .null => a.config
              | some v => v
              | none => a.config)
            ((List.lookup "position" data).getD a.position)))
        s.connections_db, 200) := by
    simp [update_agent, ha, hne]
  refine ⟨by rw [hres],
    ⟨Agent.mk a.id
      ((List.lookup "name" data).getD a.name)
      ((List.lookup "type" data).getD a.type)
      (match List.lookup "config" data with
        | some .null => a.config
        | some v => v
        | none => a.config)
      ((List.lookup "position" data).getD a.position), ?_, rfl, ?_, ?_, ?_, ?_, ?_⟩⟩
  · rw [hres]
    exact lookup_dbInsert_self s.agents_db aid _
  · intro h
    simp [h]
  · intro h
    simp [h]
  · intro h
    simp [h]
  · intro h
    rw [h]
  · intro v hv hvn
    cases v with
    | null => exact absurd rfl hvn
    | bool b => rw [hv]
    | num m => rw [hv]
    | str m => rw [hv]
    | obj o => rw [hv]
    | arr l => rw [hv]

/-- Witness for C10: replacing the config of the pipeline's entry node
with the empty mapping succeeds with status 200. -/
theorem c10_witness :
    (update_agent stPipeline "i" [("config", .obj [])]).2 = 200 :=
  (c10_update_agent_frame stPipeline "i" [("config", .obj [])] inpAgent rfl rfl).1

end App
